import Mathlib

/-!
# Neural Detective — verification of the neuron simulation core

Shallow embedding of `src/public/js/neuron-simulator.js` (class `Neuron`:
`reset`, `step`, `simulate`, `diagnose`) and of
`NeuralDetectiveApp.analyzeTreatmentEffectiveness` from the application
controller.  Voltages are modelled as rationals (the source works with
JS numbers; every constant in the program and in the properties below is
a small decimal).  The mutable fields of a `Neuron` instance are split
into the immutable constructor parameters (`Config`) and the mutable
simulation state (`State`); `simulate` is explicit state passing,
returning both the result object and the post-call state.
-/

namespace NeuralDetective

/-- The constructor parameters of `Neuron` (with defaults already
resolved): `voltage` is the configured initial voltage, the rest are the
model parameters.  These fields are never written after construction. -/
structure Config where
  voltage : ℚ
  threshold : ℚ
  spikeVoltage : ℚ
  resetVoltage : ℚ
  stimulus : ℚ
  name : String
deriving DecidableEq

/-- One entry of `this.simulationLog`: `timeStep` is `t + 1`, `type` is
the string tag `"spike"` or `"normal"`, `voltage` the logged value.
The human-readable `message` field is presentation text and omitted. -/
structure LogEntry where
  timeStep : ℕ
  type : String
  voltage : ℚ
deriving DecidableEq

/-- The mutable simulation state carried by a `Neuron` instance:
`voltage`, `spikes`, `voltageHistory`, `spikeTimeSteps`, `simulationLog`. -/
structure State where
  voltage : ℚ
  spikes : ℕ
  voltageHistory : List ℚ
  spikeTimeSteps : List ℕ
  simulationLog : List LogEntry
deriving DecidableEq

/-- Model of `Neuron.reset`: zeroes the spike count and the three history arrays,
and replaces the current voltage by `-70` when it is not negative
(`this.voltage = this.voltage < 0 ? this.voltage : -70`).  A negative
current voltage is kept as-is — the configured initial voltage is not
restored. -/
def reset (s : State) : State :=
  { voltage := if s.voltage < 0 then s.voltage else -70
    spikes := 0
    voltageHistory := []
    spikeTimeSteps := []
    simulationLog := [] }

/-- The state of a freshly constructed `Neuron` before the trailing
`reset()` call of the constructor: `this.voltage = params.voltage`, counters and
arrays empty. -/
def initState (cfg : Config) : State :=
  { voltage := cfg.voltage
    spikes := 0
    voltageHistory := []
    spikeTimeSteps := []
    simulationLog := [] }

/-- The state of a freshly constructed `Neuron` (the constructor ends by
calling `this.reset()`). -/
def mkNeuron (cfg : Config) : State :=
  reset (initState cfg)

/-- Model of `Neuron.step(timeStep)`: adds the stimulus, pushes the new voltage
onto `voltageHistory`, then checks `voltage >= threshold`.  On a spike
the just-pushed history entry is overwritten in place with
`spikeVoltage` (`this.voltageHistory[this.voltageHistory.length - 1] =
this.spikeVoltage`), the voltage is set to `spikeVoltage` and
immediately afterwards to `resetVoltage` (so `resetVoltage` is the value
carried out), the spike count is incremented and `timeStep` is appended
to `spikeTimeSteps`. -/
def step (cfg : Config) (timeStep : ℕ) (s : State) : State :=
  let v := s.voltage + cfg.stimulus
  let hist := s.voltageHistory ++ [v]
  if v ≥ cfg.threshold then
    { voltage := cfg.resetVoltage
      spikes := s.spikes + 1
      voltageHistory := hist.set (hist.length - 1) cfg.spikeVoltage
      spikeTimeSteps := s.spikeTimeSteps ++ [timeStep]
      simulationLog := s.simulationLog ++ [⟨timeStep + 1, "spike", cfg.spikeVoltage⟩] }
  else
    { voltage := v
      spikes := s.spikes
      voltageHistory := hist
      spikeTimeSteps := s.spikeTimeSteps
      simulationLog := s.simulationLog ++ [⟨timeStep + 1, "normal", v⟩] }

/-- The simulation loop `for (let t = 0; t < steps; t++) this.step(t)`,
generalised over the starting index: `runFrom cfg t n s` performs `n`
steps with time indices `t, t+1, …, t+n-1`. -/
def runFrom (cfg : Config) : ℕ → ℕ → State → State
  | _, 0, s => s
  | t, n + 1, s => runFrom cfg (t + 1) n (step cfg t s)

/-- The `parameters` echo object embedded in a simulation result.  Its
`initialVoltage` field is read from `this.voltage` after the `reset()`
call at the head of `simulate`, before the loop runs. -/
structure ParametersEcho where
  threshold : ℚ
  resetVoltage : ℚ
  stimulus : ℚ
  initialVoltage : ℚ
deriving DecidableEq

/-- The object returned by `Neuron.simulate`. -/
structure Result where
  name : String
  parameters : ParametersEcho
  steps : ℕ
  spikes : ℕ
  firingRate : ℚ
  voltageHistory : List ℚ
  spikeTimeSteps : List ℕ
  simulationLog : List LogEntry
deriving DecidableEq

/-- Model of `Neuron.simulate(steps)` as explicit state passing: resets the
instance state, runs the loop, and builds the results object
(`firingRate = this.spikes / steps`; the histories are copied out).
Returns the result together with the instance state left behind by the
call. -/
def simulate (cfg : Config) (steps : ℕ) (s : State) : Result × State :=
  let s0 := reset s
  let sF := runFrom cfg 0 steps s0
  ({ name := cfg.name
     parameters :=
       { threshold := cfg.threshold
         resetVoltage := cfg.resetVoltage
         stimulus := cfg.stimulus
         initialVoltage := s0.voltage }
     steps := steps
     spikes := sF.spikes
     firingRate := (sF.spikes : ℚ) / (steps : ℚ)
     voltageHistory := sF.voltageHistory
     spikeTimeSteps := sF.spikeTimeSteps
     simulationLog := sF.simulationLog }, sF)

/-- The function `simulate` called on a freshly constructed `Neuron`. -/
def simulateFresh (cfg : Config) (steps : ℕ) : Result :=
  (simulate cfg steps (initState cfg)).1

/-- The diagnosis object built by `Neuron.diagnose` (the fields the rule
chain assigns; the `explanation` and `recommendation` presentation
strings are omitted). -/
structure Diagnosis where
  caseName : String
  problem : String
  severity : String
  problemType : String
deriving DecidableEq

/-- Model of `Neuron.diagnose(steps)`, state-passing like `simulate` (whose state
effects it inherits): runs `this.simulate(steps)` and applies the
ordered rule chain to the configuration and the resulting firing rate.
The `severity` of the final `else` branch is the initial value
initial value `Normal`, which that branch never overwrites. -/
def diagnose (cfg : Config) (steps : ℕ) (s : State) : Diagnosis :=
  let results := (simulate cfg steps s).1
  let firingRate := results.firingRate
  if cfg.resetVoltage > -50 then
    { caseName := cfg.name, problem := "Abnormal Reset Voltage"
      severity := "Critical", problemType := "poor-reset" }
  else if firingRate = 0 then
    { caseName := cfg.name, problem := "No Action Potentials"
      severity := "Critical", problemType := "no-firing" }
  else if firingRate > 0.8 then
    { caseName := cfg.name, problem := "Hyperexcitability"
      severity := "Critical", problemType := "hyperexcitable" }
  else if firingRate < 0.2 ∧ firingRate > 0 then
    { caseName := cfg.name, problem := "Hypoexcitability"
      severity := "Mild", problemType := "hypoexcitable" }
  else
    { caseName := cfg.name, problem := "Normal Function"
      severity := "Normal", problemType := "normal" }

/-- The function `diagnose` called on a freshly constructed `Neuron`. -/
def diagnoseFresh (cfg : Config) (steps : ℕ) : Diagnosis :=
  diagnose cfg steps (initState cfg)

/-- The three clinically adjustable parameters inspected by
`analyzeTreatmentEffectiveness` (`adjustedParams`). -/
structure AdjustedParams where
  threshold : ℚ
  resetVoltage : ℚ
  stimulus : ℚ
deriving DecidableEq

/-- A `min`/`max` entry of the `normalRanges` table. -/
structure NormalRange where
  min : ℚ
  max : ℚ
deriving DecidableEq

/-- Entry `normalRanges.threshold` from `analyzeTreatmentEffectiveness`. -/
def normalRangeThreshold : NormalRange := ⟨-60, -50⟩

/-- Entry `normalRanges.resetVoltage` from `analyzeTreatmentEffectiveness`. -/
def normalRangeResetVoltage : NormalRange := ⟨-75, -65⟩

/-- Entry `normalRanges.stimulus` from `analyzeTreatmentEffectiveness`. -/
def normalRangeStimulus : NormalRange := ⟨4, 6⟩

/-- The in-range test `value >= range.min && value <= range.max` used
when counting `parametersInRange`. -/
def inNormalRange (r : NormalRange) (value : ℚ) : Bool :=
  decide (value ≥ r.min) && decide (value ≤ r.max)

/-- The `parametersInRange` counter: the loop over the three adjustable
parameters, incrementing once for each value inside its normal range. -/
def parametersInRange (p : AdjustedParams) : ℕ :=
  (if inNormalRange normalRangeThreshold p.threshold then 1 else 0) +
  (if inNormalRange normalRangeResetVoltage p.resetVoltage then 1 else 0) +
  (if inNormalRange normalRangeStimulus p.stimulus then 1 else 0)

/-- The effectiveness classification at the end of
`NeuralDetectiveApp.analyzeTreatmentEffectiveness`: reads
`results.firingRate` and `parametersInRange` and picks the first
matching band. -/
def analyzeTreatmentEffectiveness (adjustedParams : AdjustedParams)
    (results : Result) : String :=
  let firingRate := results.firingRate
  let pir := parametersInRange adjustedParams
  if firingRate ≥ 0.15 ∧ firingRate ≤ 0.4 ∧ pir = 3 then
    "Excellent Treatment!"
  else if firingRate ≥ 0.1 ∧ firingRate ≤ 0.6 ∧ pir ≥ 2 then
    "Good Treatment"
  else
    "Treatment Needs Adjustment"

/-- The `Case A` preset of `CASE_CONFIGS` (high threshold, weak
stimulus: expected to produce zero spikes). -/
def caseA : Config :=
  { voltage := -70, threshold := 0, spikeVoltage := 30
    resetVoltage := -70, stimulus := 2, name := "Case A" }

/-- The `Case B` preset of `CASE_CONFIGS` (hyperexcitable neuron). -/
def caseB : Config :=
  { voltage := -70, threshold := -80, spikeVoltage := 30
    resetVoltage := -70, stimulus := 5, name := "Case B" }

/-- The `Case C` preset of `CASE_CONFIGS` (poor reset neuron). -/
def caseC : Config :=
  { voltage := -70, threshold := -55, spikeVoltage := 30
    resetVoltage := -40, stimulus := 5, name := "Case C" }

/-- The `Case D` preset of `CASE_CONFIGS` (weak input neuron). -/
def caseD : Config :=
  { voltage := -70, threshold := -55, spikeVoltage := 30
    resetVoltage := -70, stimulus := 2, name := "Case D" }

/-- The `Normal` preset of `CASE_CONFIGS` (healthy neuron). -/
def caseNormal : Config :=
  { voltage := -70, threshold := -55, spikeVoltage := 30
    resetVoltage := -70, stimulus := 5, name := "Normal" }

/-- A configuration with a non-negative configured initial voltage that
sits exactly on the threshold boundary: `voltage + stimulus = 0 + 5 = 5
= threshold`. -/
def boundaryNonneg : Config :=
  { voltage := 0, threshold := 5, spikeVoltage := 30
    resetVoltage := -70, stimulus := 5, name := "Boundary" }

/-- A configuration with a negative configured initial voltage on the
threshold boundary: `voltage + stimulus = -60 + 5 = -55 = threshold`. -/
def boundaryNeg : Config :=
  { voltage := -60, threshold := -55, spikeVoltage := 30
    resetVoltage := -70, stimulus := 5, name := "BoundaryNeg" }

/-- A configuration whose configured initial voltage is positive (so
the `reset` call in the constructor clamps it to `-70`). -/
def clampDemo : Config :=
  { voltage := 10, threshold := 0, spikeVoltage := 30
    resetVoltage := -70, stimulus := 2, name := "Clamp" }

/-- A simulation result carrying a given firing rate (the treatment
evaluator reads nothing else from the result). -/
def resultWithRate (r : ℚ) : Result :=
  { name := "R", parameters := ⟨-55, -70, 5, -70⟩, steps := 20, spikes := 0
    firingRate := r, voltageHistory := [], spikeTimeSteps := []
    simulationLog := [] }

/-! ## Helper lemmas about the engine -/

/-- Overwriting the last slot of a list that ends in `[v]` (the in-place
update `voltageHistory[voltageHistory.length - 1] = spikeVoltage` right
after a push) replaces that pushed element. -/
theorem set_last_append {α : Type} (l : List α) (v w : α) :
    (l ++ [v]).set ((l ++ [v]).length - 1) w = l ++ [w] := by
  induction l with
  | nil => rfl
  | cons a l ih =>
      simp only [List.cons_append, List.length_cons, Nat.add_sub_cancel,
        List.set_cons_succ] at *
      simp [ih]

/-- Explicit form of `step` when the firing condition holds. -/
theorem step_spike (cfg : Config) (t : ℕ) (s : State)
    (h : s.voltage + cfg.stimulus ≥ cfg.threshold) :
    step cfg t s =
      { voltage := cfg.resetVoltage
        spikes := s.spikes + 1
        voltageHistory := s.voltageHistory ++ [cfg.spikeVoltage]
        spikeTimeSteps := s.spikeTimeSteps ++ [t]
        simulationLog := s.simulationLog ++ [⟨t + 1, "spike", cfg.spikeVoltage⟩] } := by
  simp only [step, if_pos h]
  rw [set_last_append]

/-- Explicit form of `step` when the firing condition fails. -/
theorem step_no_spike (cfg : Config) (t : ℕ) (s : State)
    (h : ¬ s.voltage + cfg.stimulus ≥ cfg.threshold) :
    step cfg t s =
      { voltage := s.voltage + cfg.stimulus
        spikes := s.spikes
        voltageHistory := s.voltageHistory ++ [s.voltage + cfg.stimulus]
        spikeTimeSteps := s.spikeTimeSteps
        simulationLog :=
          s.simulationLog ++ [⟨t + 1, "normal", s.voltage + cfg.stimulus⟩] } := by
  simp only [step, if_neg h]

/-- Each `step` call pushes exactly one entry onto `voltageHistory`. -/
theorem step_voltageHistory_length (cfg : Config) (t : ℕ) (s : State) :
    (step cfg t s).voltageHistory.length = s.voltageHistory.length + 1 := by
  by_cases h : s.voltage + cfg.stimulus ≥ cfg.threshold
  · rw [step_spike cfg t s h]; simp
  · rw [step_no_spike cfg t s h]; simp

/-- Each `step` call pushes exactly one entry onto `simulationLog`. -/
theorem step_simulationLog_length (cfg : Config) (t : ℕ) (s : State) :
    (step cfg t s).simulationLog.length = s.simulationLog.length + 1 := by
  by_cases h : s.voltage + cfg.stimulus ≥ cfg.threshold
  · rw [step_spike cfg t s h]; simp
  · rw [step_no_spike cfg t s h]; simp

/-- Running the loop for `n` steps grows `voltageHistory` by exactly `n`
entries. -/
theorem runFrom_voltageHistory_length (cfg : Config) :
    ∀ (n t : ℕ) (s : State),
      (runFrom cfg t n s).voltageHistory.length = s.voltageHistory.length + n := by
  intro n
  induction n with
  | zero => intro t s; rfl
  | succ n ih =>
      intro t s
      rw [runFrom, ih (t + 1) (step cfg t s), step_voltageHistory_length]
      omega

/-- Running the loop for `n` steps grows `simulationLog` by exactly `n`
entries. -/
theorem runFrom_simulationLog_length (cfg : Config) :
    ∀ (n t : ℕ) (s : State),
      (runFrom cfg t n s).simulationLog.length = s.simulationLog.length + n := by
  intro n
  induction n with
  | zero => intro t s; rfl
  | succ n ih =>
      intro t s
      rw [runFrom, ih (t + 1) (step cfg t s), step_simulationLog_length]
      omega

/-- The loop only appends to `spikeTimeSteps`: whatever the start state
already recorded stays at the front. -/
theorem runFrom_spikeTimeSteps_extends (cfg : Config) :
    ∀ (n t : ℕ) (s : State),
      ∃ l, (runFrom cfg t n s).spikeTimeSteps = s.spikeTimeSteps ++ l := by
  intro n
  induction n with
  | zero => intro t s; exact ⟨[], by simp [runFrom]⟩
  | succ n ih =>
      intro t s
      obtain ⟨l, hl⟩ := ih (t + 1) (step cfg t s)
      rw [runFrom, hl]
      by_cases h : s.voltage + cfg.stimulus ≥ cfg.threshold
      · exact ⟨t :: l, by rw [step_spike cfg t s h]; simp⟩
      · exact ⟨l, by rw [step_no_spike cfg t s h]⟩

/-- After `reset`, the state is determined by the surviving voltage
alone: counters and histories are cleared unconditionally. -/
theorem reset_eq_of_voltage_eq {s₁ s₂ : State}
    (h : (reset s₁).voltage = (reset s₂).voltage) : reset s₁ = reset s₂ := by
  simp only [reset] at h ⊢
  rw [h]

/-- A call to `simulate` only sees the pre-call state through `reset`, so two
calls whose pre-call states survive `reset` with the same voltage are
indistinguishable (result and post-call state alike). -/
theorem simulate_eq_of_reset_voltage_eq (cfg : Config) (steps : ℕ)
    {s₁ s₂ : State} (h : (reset s₁).voltage = (reset s₂).voltage) :
    simulate cfg steps s₁ = simulate cfg steps s₂ := by
  simp only [simulate, reset_eq_of_voltage_eq h]

/-- A call to `step` never reads the configured `voltage` field: the current
voltage lives in the instance state. -/
theorem step_voltage_field_irrel (v v' th sp rv st : ℚ) (nm : String)
    (t : ℕ) (s : State) :
    step ⟨v, th, sp, rv, st, nm⟩ t s = step ⟨v', th, sp, rv, st, nm⟩ t s := rfl

/-- The loop never reads the configured `voltage` field. -/
theorem runFrom_voltage_field_irrel (v v' th sp rv st : ℚ) (nm : String) :
    ∀ (n t : ℕ) (s : State),
      runFrom ⟨v, th, sp, rv, st, nm⟩ t n s = runFrom ⟨v', th, sp, rv, st, nm⟩ t n s := by
  intro n
  induction n with
  | zero => intro t s; rfl
  | succ n ih =>
      intro t s
      rw [runFrom, runFrom, step_voltage_field_irrel v v', ih]

/-- A call to `simulate` never reads the configured `voltage` field directly: the
run only depends on it through the instance state. -/
theorem simulate_voltage_field_irrel (cfg : Config) (v : ℚ) (steps : ℕ) (s : State) :
    simulate { cfg with voltage := v } steps s = simulate cfg steps s := by
  cases cfg with
  | mk v0 th sp rv st nm =>
      simp only [simulate, runFrom_voltage_field_irrel v v0 th sp rv st nm]

/-! ## Claims -/

/-- C8: for every configuration and every positive number of steps, the
resulting `voltageHistory` and step log (`simulationLog`) of the simulation
each have length exactly `steps`: every executed step appends exactly
one entry to each. -/
theorem C8_history_and_log_lengths (cfg : Config) (steps : ℕ) (s : State)
    (_hsteps : 0 < steps) :
    (simulate cfg steps s).1.voltageHistory.length = steps ∧
    (simulate cfg steps s).1.simulationLog.length = steps := by
  constructor <;>
    simp [simulate, runFrom_voltageHistory_length,
      runFrom_simulationLog_length, reset]

/-- Witness for C8 at the `Case A` preset with 20 steps. -/
theorem C8_witness :
    (0 < 20) ∧
    (simulate caseA 20 (initState caseA)).1.voltageHistory.length = 20 ∧
    (simulate caseA 20 (initState caseA)).1.simulationLog.length = 20 :=
  ⟨by norm_num,
   (C8_history_and_log_lengths caseA 20 (initState caseA) (by norm_num)).1,
   (C8_history_and_log_lengths caseA 20 (initState caseA) (by norm_num)).2⟩

/-- C4: in every step, the stimulus is first added unconditionally to
the voltage; if the post-stimulus voltage reaches the threshold, the
history entry recorded for this step is the spike peak voltage (not the
pre-threshold value), the carried voltage becomes `resetVoltage`, the
spike count increases by exactly one and the step index is appended to
`spikeTimeSteps`; otherwise the history entry is the post-stimulus
voltage and that voltage is carried unchanged. -/
theorem C4_step_semantics (cfg : Config) (t : ℕ) (s : State) :
    (s.voltage + cfg.stimulus ≥ cfg.threshold →
      step cfg t s =
        { voltage := cfg.resetVoltage
          spikes := s.spikes + 1
          voltageHistory := s.voltageHistory ++ [cfg.spikeVoltage]
          spikeTimeSteps := s.spikeTimeSteps ++ [t]
          simulationLog := s.simulationLog ++ [⟨t + 1, "spike", cfg.spikeVoltage⟩] }) ∧
    (s.voltage + cfg.stimulus < cfg.threshold →
      step cfg t s =
        { voltage := s.voltage + cfg.stimulus
          spikes := s.spikes
          voltageHistory := s.voltageHistory ++ [s.voltage + cfg.stimulus]
          spikeTimeSteps := s.spikeTimeSteps
          simulationLog :=
            s.simulationLog ++ [⟨t + 1, "normal", s.voltage + cfg.stimulus⟩] }) :=
  ⟨step_spike cfg t s, fun h => step_no_spike cfg t s (not_le.mpr h)⟩

/-- Witness for C4: a spiking step (`-60 + 5 ≥ -55`) and a non-spiking
step (`-70 + 5 < -55`) of the `Normal` preset. -/
theorem C4_witness :
    step caseNormal 2 ⟨-60, 0, [], [], []⟩ =
      ⟨-70, 1, [30], [2], [⟨3, "spike", 30⟩]⟩ ∧
    step caseNormal 0 ⟨-70, 0, [], [], []⟩ =
      ⟨-65, 0, [-65], [], [⟨1, "normal", -65⟩]⟩ := by
  constructor
  · rw [(C4_step_semantics caseNormal 2 ⟨-60, 0, [], [], []⟩).1 (by norm_num [caseNormal])]
    norm_num [caseNormal]
  · rw [(C4_step_semantics caseNormal 0 ⟨-70, 0, [], [], []⟩).2 (by norm_num [caseNormal])]
    norm_num [caseNormal]

/-- C2: for every configuration with `resetVoltage > -50`, every
positive step count and every pre-call state, `diagnose` returns
problem type `poor-reset` with severity `Critical`, regardless of the
firing rate produced by the paired simulation (the rule inspects only
the configuration, so it suppresses all firing-rate-based rules). -/
theorem C2_poor_reset_priority (cfg : Config) (steps : ℕ) (s : State)
    (_hsteps : 0 < steps) (hreset : cfg.resetVoltage > -50) :
    (diagnose cfg steps s).problemType = "poor-reset" ∧
    (diagnose cfg steps s).severity = "Critical" := by
  rw [diagnose, if_pos hreset]
  exact ⟨rfl, rfl⟩

/-- Witness for C2 at the `Case C` preset (reset voltage `-40`). -/
theorem C2_witness :
    (0 < 20) ∧
    (diagnose caseC 20 (initState caseC)).problemType = "poor-reset" ∧
    (diagnose caseC 20 (initState caseC)).severity = "Critical" :=
  ⟨by norm_num,
   C2_poor_reset_priority caseC 20 (initState caseC) (by norm_num)
     (by norm_num [caseC])⟩

/-- C3: with a non-elevated reset voltage (`resetVoltage ≤ -50`), the
diagnosis is driven by the firing rate `r` of the paired simulation, the
rules tried in priority order: `r = 0` gives `no-firing`/`Critical`,
then `r > 0.8` gives `hyperexcitable`/`Critical`, then `0 < r < 0.2`
gives `hypoexcitable`/`Mild`, and `0.2 ≤ r ≤ 0.8` falls through to
`normal`/`Normal`. -/
theorem C3_firing_rate_rules (cfg : Config) (steps : ℕ) (s : State) (r : ℚ)
    (_hsteps : 0 < steps) (hreset : cfg.resetVoltage ≤ -50)
    (hr : (simulate cfg steps s).1.firingRate = r) :
    (r = 0 →
      (diagnose cfg steps s).problemType = "no-firing" ∧
      (diagnose cfg steps s).severity = "Critical") ∧
    (r > 0.8 →
      (diagnose cfg steps s).problemType = "hyperexcitable" ∧
      (diagnose cfg steps s).severity = "Critical") ∧
    (0 < r ∧ r < 0.2 →
      (diagnose cfg steps s).problemType = "hypoexcitable" ∧
      (diagnose cfg steps s).severity = "Mild") ∧
    (0.2 ≤ r ∧ r ≤ 0.8 →
      (diagnose cfg steps s).problemType = "normal" ∧
      (diagnose cfg steps s).severity = "Normal") := by
  have hnr : ¬ cfg.resetVoltage > -50 := not_lt.mpr hreset
  simp only [diagnose, hr, if_neg hnr]
  refine ⟨fun h0 => ?_, fun h8 => ?_, fun hm => ?_, fun hn => ?_⟩
  · rw [if_pos h0]; exact ⟨rfl, rfl⟩
  · have hne : ¬ r = 0 := by intro he; rw [he] at h8; norm_num at h8
    rw [if_neg hne, if_pos h8]; exact ⟨rfl, rfl⟩
  · obtain ⟨hpos, hlt⟩ := hm
    have hne : ¬ r = 0 := ne_of_gt hpos
    have h8 : ¬ r > 0.8 := by
      intro hc
      have : (0.2 : ℚ) < 0.8 := by norm_num
      linarith
    rw [if_neg hne, if_neg h8, if_pos ⟨hlt, hpos⟩]; exact ⟨rfl, rfl⟩
  · obtain ⟨hge, hle⟩ := hn
    have hne : ¬ r = 0 := by intro he; rw [he] at hge; norm_num at hge
    have h8 : ¬ r > 0.8 := not_lt.mpr hle
    have hm : ¬ (r < 0.2 ∧ r > 0) := fun hc => absurd hc.1 (not_lt.mpr hge)
    rw [if_neg hne, if_neg h8, if_neg hm]; exact ⟨rfl, rfl⟩

/-- Witness for C3: the four presets hit the four firing-rate bands
(rates 0, 1, 1/10 and 3/10 over 20 steps). -/
theorem C3_witness :
    (diagnose caseA 20 (initState caseA)).problemType = "no-firing" ∧
    (diagnose caseB 20 (initState caseB)).problemType = "hyperexcitable" ∧
    (diagnose caseD 20 (initState caseD)).problemType = "hypoexcitable" ∧
    (diagnose caseNormal 20 (initState caseNormal)).problemType = "normal" := by
  refine ⟨?_, ?_, ?_, ?_⟩
  · exact ((C3_firing_rate_rules caseA 20 (initState caseA) 0 (by norm_num)
      (by norm_num [caseA])
      (by norm_num [simulate, runFrom, step, reset, initState, caseA])).1 rfl).1
  · exact ((C3_firing_rate_rules caseB 20 (initState caseB) 1 (by norm_num)
      (by norm_num [caseB])
      (by norm_num [simulate, runFrom, step, reset, initState, caseB])).2.1
      (by norm_num)).1
  · exact ((C3_firing_rate_rules caseD 20 (initState caseD) (1/10) (by norm_num)
      (by norm_num [caseD])
      (by norm_num [simulate, runFrom, step, reset, initState, caseD])).2.2.1
      (by norm_num)).1
  · exact ((C3_firing_rate_rules caseNormal 20 (initState caseNormal) (3/10)
      (by norm_num) (by norm_num [caseNormal])
      (by norm_num [simulate, runFrom, step, reset, initState, caseNormal])).2.2.2
      (by norm_num)).1

/-- C6: the `Case A` configuration (`initial -70`, `threshold 0`,
`stimulus 2`, `reset -70`) run for 20 steps on a fresh engine records
zero spikes, every history value stays strictly below the threshold 0,
the voltage after the 20th step is `-30`, and the diagnosis is
`no-firing` with severity `Critical`. -/
theorem C6_case_a_no_firing :
    (simulateFresh caseA 20).spikes = 0 ∧
    (∀ v ∈ (simulateFresh caseA 20).voltageHistory, v < 0) ∧
    (simulate caseA 20 (initState caseA)).2.voltage = -30 ∧
    (diagnoseFresh caseA 20).problemType = "no-firing" ∧
    (diagnoseFresh caseA 20).severity = "Critical" := by
  refine ⟨?_, ?_, ?_, ?_, ?_⟩ <;>
    norm_num [simulateFresh, diagnoseFresh, diagnose, simulate, runFrom,
      step, reset, initState, caseA]

/-- C10: when the configured initial voltage is non-negative, the run
does not start from it: the constructor/`simulate` `reset` replaces it
with `-70`, the echoed `parameters.initialVoltage` reports `-70`, and
the whole result coincides with that of the same configuration with
initial voltage `-70`. -/
theorem C10_nonnegative_initial_clamped (cfg : Config) (steps : ℕ)
    (h : 0 ≤ cfg.voltage) :
    (simulateFresh cfg steps).parameters.initialVoltage = -70 ∧
    simulateFresh cfg steps = simulateFresh { cfg with voltage := -70 } steps := by
  have hv : (reset (initState cfg)).voltage = -70 := by
    simp only [reset, initState, if_neg (not_lt.mpr h)]
  constructor
  · simp only [simulateFresh, simulate, hv]
  · have hv' : (reset (initState { cfg with voltage := -70 })).voltage = -70 := by
      norm_num [reset, initState]
    rw [simulateFresh, simulateFresh, simulate_voltage_field_irrel cfg (-70) steps]
    exact congrArg Prod.fst
      (simulate_eq_of_reset_voltage_eq cfg steps (hv.trans hv'.symm))

/-- Witness for C10 at a configuration with configured voltage `10`. -/
theorem C10_witness :
    (0 : ℚ) ≤ clampDemo.voltage ∧
    (simulateFresh clampDemo 3).parameters.initialVoltage = -70 ∧
    simulateFresh clampDemo 3 = simulateFresh { clampDemo with voltage := -70 } 3 :=
  ⟨by norm_num [clampDemo],
   (C10_nonnegative_initial_clamped clampDemo 3 (by norm_num [clampDemo])).1,
   (C10_nonnegative_initial_clamped clampDemo 3 (by norm_num [clampDemo])).2⟩

/-- C5 counterexample: a configuration with a non-negative configured
initial voltage sitting exactly on the threshold boundary
(`0 + 5 = 5 = threshold`) does not spike at step 0 — `reset` replaces
the non-negative starting voltage with `-70`, so step 0 computes
`-70 + 5 = -65 < 5`. -/
theorem C5_counterexample :
    boundaryNonneg.voltage + boundaryNonneg.stimulus = boundaryNonneg.threshold ∧
    (simulateFresh boundaryNonneg 1).spikes = 0 ∧
    (simulateFresh boundaryNonneg 1).spikeTimeSteps = [] := by
  refine ⟨by norm_num [boundaryNonneg], ?_, ?_⟩ <;>
    norm_num [simulateFresh, simulate, runFrom, step, reset, initState,
      boundaryNonneg]

/-- C5 amended: for every configuration whose configured initial voltage
is negative (so that `reset` keeps it) and satisfies
`initialVoltage + stimulusPerStep = thresholdVoltage` exactly, a fresh
`simulate` run registers a spike at step 0: the firing comparison is
`>=`, so a voltage exactly equal to the threshold fires. -/
theorem C5_threshold_boundary_amended (cfg : Config) (steps : ℕ)
    (hsteps : 0 < steps) (hneg : cfg.voltage < 0)
    (hb : cfg.voltage + cfg.stimulus = cfg.threshold) :
    (simulateFresh cfg steps).spikeTimeSteps.head? = some 0 := by
  have hv0 : (reset (initState cfg)).voltage = cfg.voltage := by
    simp only [reset, initState, if_pos hneg]
  obtain ⟨n, rfl⟩ : ∃ n, steps = n + 1 :=
    ⟨steps - 1, (Nat.succ_pred_eq_of_pos hsteps).symm⟩
  have hfire : (reset (initState cfg)).voltage + cfg.stimulus ≥ cfg.threshold :=
    ge_of_eq (by rw [hv0, hb])
  obtain ⟨l, hl⟩ :=
    runFrom_spikeTimeSteps_extends cfg n 1 (step cfg 0 (reset (initState cfg)))
  simp only [simulateFresh, simulate, runFrom]
  rw [hl, step_spike cfg 0 (reset (initState cfg)) hfire]
  simp [reset]

/-- Witness for C5 at the boundary configuration `-60 + 5 = -55`. -/
theorem C5_witness :
    (0 < 3) ∧ boundaryNeg.voltage < 0 ∧
    boundaryNeg.voltage + boundaryNeg.stimulus = boundaryNeg.threshold ∧
    (simulateFresh boundaryNeg 3).spikeTimeSteps.head? = some 0 :=
  ⟨by norm_num, by norm_num [boundaryNeg], by norm_num [boundaryNeg],
   C5_threshold_boundary_amended boundaryNeg 3 (by norm_num)
     (by norm_num [boundaryNeg]) (by norm_num [boundaryNeg])⟩

/-- C1 counterexample: with the `Case A` configuration and 20 steps, the
first `simulate` call on a fresh engine records no spike, but a second
call on the same instance starts from the carried-over voltage `-30`
(only clamped when non-negative, never restored to the configured
initial voltage) and records a spike at step 14 — the two calls do not
yield identical results. -/
theorem C1_counterexample :
    (simulate caseA 20 (initState caseA)).1.spikes = 0 ∧
    (simulate caseA 20 (initState caseA)).1.spikeTimeSteps = [] ∧
    (simulate caseA 20 (simulate caseA 20 (initState caseA)).2).1.spikes = 1 ∧
    (simulate caseA 20 (simulate caseA 20 (initState caseA)).2).1.spikeTimeSteps
      = [14] := by
  refine ⟨?_, ?_, ?_, ?_⟩ <;>
    norm_num [simulate, runFrom, step, reset, initState, caseA]

/-- C1 amended: `simulate` is deterministic given the voltage surviving
`reset`: two calls with the same configuration and step count whose
pre-call states agree on the post-`reset` voltage (in particular any two
calls on freshly constructed engines, or a repeat call whose carried
voltage matches) yield identical results — spike counts and histories
never leak between calls, only the voltage does. -/
theorem C1_determinism_amended (cfg : Config) (steps : ℕ) (s₁ s₂ : State)
    (_hsteps : 0 < steps) (h : (reset s₁).voltage = (reset s₂).voltage) :
    (simulate cfg steps s₁).1 = (simulate cfg steps s₂).1 :=
  congrArg Prod.fst (simulate_eq_of_reset_voltage_eq cfg steps h)

/-- Witness for C1: a fresh engine versus a dirty state with junk
history but the same surviving voltage `-70`. -/
theorem C1_witness :
    (0 < 20) ∧
    (reset (initState caseA)).voltage =
      (reset ⟨-70, 5, [1], [2, 3], [⟨1, "spike", 30⟩]⟩).voltage ∧
    (simulate caseA 20 (initState caseA)).1 =
      (simulate caseA 20 ⟨-70, 5, [1], [2, 3], [⟨1, "spike", 30⟩]⟩).1 :=
  ⟨by norm_num, by norm_num [reset, initState, caseA],
   C1_determinism_amended caseA 20 _ _ (by norm_num)
     (by norm_num [reset, initState, caseA])⟩

/-- C7 counterexample: `simulate` does not reject a zero step count — it
returns an ordinary (successful) result whose histories are empty and
whose spike count is zero (in JS its `firingRate` is the silent `0/0`;
no error is raised). -/
theorem C7_counterexample :
    (simulateFresh caseA 0).voltageHistory = [] ∧
    (simulateFresh caseA 0).spikes = 0 ∧
    (simulateFresh caseA 0).steps = 0 :=
  ⟨rfl, rfl, rfl⟩

/-- C7 amended: `simulate` performs no validation of the step count: for
zero requested steps (the JS `for` loop likewise runs no iteration for
any non-positive count) it returns a successful result with empty
histories and zero spikes instead of failing, for every configuration
and pre-call state. -/
theorem C7_no_fail_fast_amended (cfg : Config) (s : State) :
    (simulate cfg 0 s).1.voltageHistory = [] ∧
    (simulate cfg 0 s).1.spikeTimeSteps = [] ∧
    (simulate cfg 0 s).1.spikes = 0 ∧
    (simulate cfg 0 s).1.simulationLog = [] :=
  ⟨rfl, rfl, rfl, rfl⟩

/-- The boolean in-range test agrees with interval membership. -/
theorem inNormalRange_iff (r : NormalRange) (v : ℚ) :
    inNormalRange r v = true ↔ r.min ≤ v ∧ v ≤ r.max := by
  simp [inNormalRange, ge_iff_le, and_comm]

/-- The threshold in-range test as a decided interval proposition. -/
theorem inNormalRange_decide_threshold (v : ℚ) :
    inNormalRange normalRangeThreshold v = decide (-60 ≤ v ∧ v ≤ -50) := by
  simp [inNormalRange, normalRangeThreshold, ge_iff_le, Bool.decide_and]

/-- The reset-voltage in-range test as a decided interval proposition. -/
theorem inNormalRange_decide_reset (v : ℚ) :
    inNormalRange normalRangeResetVoltage v = decide (-75 ≤ v ∧ v ≤ -65) := by
  simp [inNormalRange, normalRangeResetVoltage, ge_iff_le, Bool.decide_and]

/-- The stimulus in-range test as a decided interval proposition. -/
theorem inNormalRange_decide_stimulus (v : ℚ) :
    inNormalRange normalRangeStimulus v = decide (4 ≤ v ∧ v ≤ 6) := by
  simp [inNormalRange, normalRangeStimulus, ge_iff_le, Bool.decide_and]

/-- The counter `parametersInRange` reaches 3 exactly when all three adjustable
parameters sit inside their normal ranges. -/
theorem parametersInRange_eq_three_iff (p : AdjustedParams) :
    parametersInRange p = 3 ↔
      ((-60 ≤ p.threshold ∧ p.threshold ≤ -50) ∧
       (-75 ≤ p.resetVoltage ∧ p.resetVoltage ≤ -65) ∧
       (4 ≤ p.stimulus ∧ p.stimulus ≤ 6)) := by
  rw [parametersInRange, inNormalRange_decide_threshold,
    inNormalRange_decide_reset, inNormalRange_decide_stimulus]
  by_cases hP1 : (-60 : ℚ) ≤ p.threshold ∧ p.threshold ≤ -50 <;>
    by_cases hP2 : (-75 : ℚ) ≤ p.resetVoltage ∧ p.resetVoltage ≤ -65 <;>
      by_cases hP3 : (4 : ℚ) ≤ p.stimulus ∧ p.stimulus ≤ 6 <;>
        simp [hP1, hP2, hP3]

/-- The counter `parametersInRange` reaches 2 exactly when at least two of the
three adjustable parameters sit inside their normal ranges. -/
theorem two_le_parametersInRange_iff (p : AdjustedParams) :
    2 ≤ parametersInRange p ↔
      (((-60 ≤ p.threshold ∧ p.threshold ≤ -50) ∧
        (-75 ≤ p.resetVoltage ∧ p.resetVoltage ≤ -65)) ∨
       ((-60 ≤ p.threshold ∧ p.threshold ≤ -50) ∧
        (4 ≤ p.stimulus ∧ p.stimulus ≤ 6)) ∨
       ((-75 ≤ p.resetVoltage ∧ p.resetVoltage ≤ -65) ∧
        (4 ≤ p.stimulus ∧ p.stimulus ≤ 6))) := by
  rw [parametersInRange, inNormalRange_decide_threshold,
    inNormalRange_decide_reset, inNormalRange_decide_stimulus]
  by_cases hP1 : (-60 : ℚ) ≤ p.threshold ∧ p.threshold ≤ -50 <;>
    by_cases hP2 : (-75 : ℚ) ≤ p.resetVoltage ∧ p.resetVoltage ≤ -65 <;>
      by_cases hP3 : (4 : ℚ) ≤ p.stimulus ∧ p.stimulus ≤ 6 <;>
        simp [hP1, hP2, hP3]

/-- C9: the treatment-effectiveness evaluator returns `Excellent` iff
the firing rate lies in `[0.15, 0.4]` and all three adjusted parameters
lie in their normal ranges (threshold in `[-60, -50]`, reset voltage in
`[-75, -65]`, stimulus in `[4, 6]`); otherwise `Good` iff the firing
rate lies in `[0.1, 0.6]` and at least two of the three parameters are
in range; otherwise `Needs Adjustment`. -/
theorem C9_treatment_effectiveness (p : AdjustedParams) (res : Result) :
    (analyzeTreatmentEffectiveness p res = "Excellent Treatment!" ↔
      (0.15 ≤ res.firingRate ∧ res.firingRate ≤ 0.4 ∧
        ((-60 ≤ p.threshold ∧ p.threshold ≤ -50) ∧
         (-75 ≤ p.resetVoltage ∧ p.resetVoltage ≤ -65) ∧
         (4 ≤ p.stimulus ∧ p.stimulus ≤ 6)))) ∧
    (analyzeTreatmentEffectiveness p res = "Good Treatment" ↔
      (¬ (0.15 ≤ res.firingRate ∧ res.firingRate ≤ 0.4 ∧
          ((-60 ≤ p.threshold ∧ p.threshold ≤ -50) ∧
           (-75 ≤ p.resetVoltage ∧ p.resetVoltage ≤ -65) ∧
           (4 ≤ p.stimulus ∧ p.stimulus ≤ 6))) ∧
       0.1 ≤ res.firingRate ∧ res.firingRate ≤ 0.6 ∧
        (((-60 ≤ p.threshold ∧ p.threshold ≤ -50) ∧
          (-75 ≤ p.resetVoltage ∧ p.resetVoltage ≤ -65)) ∨
         ((-60 ≤ p.threshold ∧ p.threshold ≤ -50) ∧
          (4 ≤ p.stimulus ∧ p.stimulus ≤ 6)) ∨
         ((-75 ≤ p.resetVoltage ∧ p.resetVoltage ≤ -65) ∧
          (4 ≤ p.stimulus ∧ p.stimulus ≤ 6))))) ∧
    (analyzeTreatmentEffectiveness p res = "Treatment Needs Adjustment" ↔
      (¬ (0.15 ≤ res.firingRate ∧ res.firingRate ≤ 0.4 ∧
          ((-60 ≤ p.threshold ∧ p.threshold ≤ -50) ∧
           (-75 ≤ p.resetVoltage ∧ p.resetVoltage ≤ -65) ∧
           (4 ≤ p.stimulus ∧ p.stimulus ≤ 6))) ∧
       ¬ (0.1 ≤ res.firingRate ∧ res.firingRate ≤ 0.6 ∧
          (((-60 ≤ p.threshold ∧ p.threshold ≤ -50) ∧
            (-75 ≤ p.resetVoltage ∧ p.resetVoltage ≤ -65)) ∨
           ((-60 ≤ p.threshold ∧ p.threshold ≤ -50) ∧
            (4 ≤ p.stimulus ∧ p.stimulus ≤ 6)) ∨
           ((-75 ≤ p.resetVoltage ∧ p.resetVoltage ≤ -65) ∧
            (4 ≤ p.stimulus ∧ p.stimulus ≤ 6)))))) := by
  have e3 := parametersInRange_eq_three_iff p
  have e2 := two_le_parametersInRange_iff p
  have sEG : ("Excellent Treatment!" : String) ≠ "Good Treatment" := by decide
  have sEN : ("Excellent Treatment!" : String) ≠ "Treatment Needs Adjustment" := by
    decide
  have sGE : ("Good Treatment" : String) ≠ "Excellent Treatment!" := by decide
  have sGN : ("Good Treatment" : String) ≠ "Treatment Needs Adjustment" := by decide
  have sNE : ("Treatment Needs Adjustment" : String) ≠ "Excellent Treatment!" := by
    decide
  have sNG : ("Treatment Needs Adjustment" : String) ≠ "Good Treatment" := by decide
  by_cases hA : res.firingRate ≥ 0.15 ∧ res.firingRate ≤ 0.4 ∧
      parametersInRange p = 3
  · have hA' : 0.15 ≤ res.firingRate ∧ res.firingRate ≤ 0.4 ∧
        ((-60 ≤ p.threshold ∧ p.threshold ≤ -50) ∧
         (-75 ≤ p.resetVoltage ∧ p.resetVoltage ≤ -65) ∧
         (4 ≤ p.stimulus ∧ p.stimulus ≤ 6)) :=
      ⟨hA.1, hA.2.1, e3.mp hA.2.2⟩
    simp only [analyzeTreatmentEffectiveness, if_pos hA]
    exact ⟨iff_of_true trivial hA',
      iff_of_false sEG fun h => h.1 hA',
      iff_of_false sEN fun h => h.1 hA'⟩
  · have hA' : ¬ (0.15 ≤ res.firingRate ∧ res.firingRate ≤ 0.4 ∧
        ((-60 ≤ p.threshold ∧ p.threshold ≤ -50) ∧
         (-75 ≤ p.resetVoltage ∧ p.resetVoltage ≤ -65) ∧
         (4 ≤ p.stimulus ∧ p.stimulus ≤ 6))) :=
      fun h => hA ⟨h.1, h.2.1, e3.mpr h.2.2⟩
    by_cases hB : res.firingRate ≥ 0.1 ∧ res.firingRate ≤ 0.6 ∧
        2 ≤ parametersInRange p
    · have hB' : 0.1 ≤ res.firingRate ∧ res.firingRate ≤ 0.6 ∧
          (((-60 ≤ p.threshold ∧ p.threshold ≤ -50) ∧
            (-75 ≤ p.resetVoltage ∧ p.resetVoltage ≤ -65)) ∨
           ((-60 ≤ p.threshold ∧ p.threshold ≤ -50) ∧
            (4 ≤ p.stimulus ∧ p.stimulus ≤ 6)) ∨
           ((-75 ≤ p.resetVoltage ∧ p.resetVoltage ≤ -65) ∧
            (4 ≤ p.stimulus ∧ p.stimulus ≤ 6))) :=
        ⟨hB.1, hB.2.1, e2.mp hB.2.2⟩
      simp only [analyzeTreatmentEffectiveness, if_neg hA, if_pos hB]
      exact ⟨iff_of_false sGE fun h => hA' h,
        iff_of_true trivial ⟨hA', hB'⟩,
        iff_of_false sGN fun h => h.2 hB'⟩
    · have hB' : ¬ (0.1 ≤ res.firingRate ∧ res.firingRate ≤ 0.6 ∧
          (((-60 ≤ p.threshold ∧ p.threshold ≤ -50) ∧
            (-75 ≤ p.resetVoltage ∧ p.resetVoltage ≤ -65)) ∨
           ((-60 ≤ p.threshold ∧ p.threshold ≤ -50) ∧
            (4 ≤ p.stimulus ∧ p.stimulus ≤ 6)) ∨
           ((-75 ≤ p.resetVoltage ∧ p.resetVoltage ≤ -65) ∧
            (4 ≤ p.stimulus ∧ p.stimulus ≤ 6)))) :=
        fun h => hB ⟨h.1, h.2.1, e2.mpr h.2.2⟩
      simp only [analyzeTreatmentEffectiveness, if_neg hA, if_neg hB]
      exact ⟨iff_of_false sNE fun h => hA' h,
        iff_of_false sNG fun h => hB' h.2,
        iff_of_true trivial ⟨hA', hB'⟩⟩

/-- Witness for C9: a fully normal parameter triple with firing rate
`3/10` is classified Excellent. -/
theorem C9_witness :
    analyzeTreatmentEffectiveness ⟨-55, -70, 5⟩ (resultWithRate (3/10)) =
      "Excellent Treatment!" :=
  ((C9_treatment_effectiveness ⟨-55, -70, 5⟩ (resultWithRate (3/10))).1).mpr
    (by norm_num [resultWithRate])

end NeuralDetective
